import Mathlib

/-!
Verification development for the Sai University academic-advising RAG backend.

The definitions below are a shallow embedding of the Python sources:
  - newrag_backend.py : the Flask streaming backend (class NewRAGService and
    the /api/newrag/chat endpoint) — the primary model;
  - newragsearch.py : the CLI loop (function main) from which the backend was
    derived;
  - app.py : an earlier Flask variant with the same streaming-adapter shape.

External effects (the Ollama router call, the embedding service, the Chroma
vector store, and the two streaming chat providers) are modelled as explicit
environment values describing the observable outcome of each outbound call;
generators are modelled as the finite list of text fragments they yield.
-/

namespace NewRAG

/-- A chat message: role is one of system / user / assistant. -/
structure Message where
  role : String
  content : String
deriving DecidableEq, Repr

/-- The user profile kept in the session
(newrag_backend.py line 79: `{"major": None, "ambition": None}`). -/
structure UserProfile where
  major : Option String
  ambition : Option String
deriving DecidableEq, Repr

/-- The in-memory session of NewRAGService (newrag_backend.py lines 77-80):
chat history, user profile, and the awaiting_ambition flag. -/
structure SessionState where
  chat_history : List Message
  user_profile : UserProfile
  awaiting_ambition : Bool
deriving DecidableEq, Repr

/-- Fresh session (NewRAGService.__init__, lines 78-80). -/
def initialState : SessionState :=
  { chat_history := [], user_profile := { major := none, ambition := none },
    awaiting_ambition := false }

/-- NewRAGService.clear (newrag_backend.py lines 292-295). -/
def clear (_st : SessionState) : SessionState :=
  { chat_history := [], user_profile := { major := none, ambition := none },
    awaiting_ambition := false }

/-- Fixed acknowledgement text of the ambition follow-up turn
(newrag_backend.py lines 232-234). -/
def ackText : String :=
  "Thank you for sharing. I\x27ve made a note of that. Now, what was your original question about your future?"

/-- Fixed clarifying-question text of the guidance_search-without-ambition turn
(newrag_backend.py lines 247-249). -/
def clarifyText : String :=
  "That\x27s an important question. To give you the best guidance, could you tell me a bit about your career ambitions or what you hope to achieve?"

/-- Diagnostic yielded when OpenRouter has no credential
(newrag_backend.py line 162). -/
def notConfiguredMsg : String := "The web search feature is not configured."

/-- Diagnostic yielded when the OpenRouter streaming request fails
(newrag_backend.py line 191). -/
def webSearchErrorMsg : String := "Sorry, I couldn\x27t perform the web search."

/-- Diagnostic yielded when the Ollama streaming request fails
(newrag_backend.py line 123). -/
def connectionErrorMsg : String := "Sorry, I encountered a connection error."

/-- Python truthiness of an optional string: None and the empty string are
falsy.  Used for `not routing.get("query")` and
`not self.user_profile.get("ambition")`. -/
def optStrFalsy : Option String → Bool
  | none => true
  | some s => decide (s = "")

/-! ### Intent router (newrag_backend.py `_route_and_refine`, lines 200-224) -/

/-- The routing decision returned by `_route_and_refine`:
`{"intent": ..., "query": ...}` where query may be JSON null. -/
structure RoutingDecision where
  intent : String
  query : Option String
deriving DecidableEq, Repr

/-- Observable outcome of the single routing call to Ollama:
either some exception was raised along the way (transport error, non-2xx,
unparsable response body, unparsable message content), or a JSON object was
obtained whose `intent` and `query` fields may each be present or absent. -/
inductive RouterOutcome where
  | failure
  | reply (intentField : Option String) (queryField : Option String)
deriving DecidableEq, Repr

/-- `_route_and_refine` (lines 213-224): on success,
`intent = json_content.get("intent", "conversation")` and
`refined = json_content.get("query")`; on any exception the fallback
`{"intent": "conversation", "query": query}` is returned. -/
def route_and_refine (outcome : RouterOutcome) (query : String) : RoutingDecision :=
  match outcome with
  | .failure => { intent := "conversation", query := some query }
  | .reply intentField queryField =>
      { intent := intentField.getD "conversation", query := queryField }

/-! ### Provider streaming adapter
(`_stream_perplexity_or_openrouter`, newrag_backend.py lines 126-192) -/

/-- Observable outcome of one streaming provider request:
  - preFail: the request itself raises (connection / timeout / non-2xx)
    before any fragment is extracted;
  - midFail: the stream yields the given fragments, then raises mid-stream;
  - success: the stream yields the given fragments and closes normally.
The fragments are the non-empty content deltas extracted from well-formed
`data: ` lines; malformed or non-matching lines yield nothing and are already
absorbed here. -/
inductive ProviderOutcome where
  | preFail
  | midFail (chunks : List String)
  | success (chunks : List String)
deriving DecidableEq, Repr

/-- Configuration and outcomes for one call to
`_stream_perplexity_or_openrouter`: whether each credential is present and
how each provider behaves if its request is issued. -/
structure StreamEnv where
  perplexityConfigured : Bool
  openrouterConfigured : Bool
  perplexityOutcome : ProviderOutcome
  openrouterOutcome : ProviderOutcome
deriving DecidableEq, Repr

/-- The OpenRouter fallback part of the generator (lines 160-191): if no
OpenRouter key, yield the not-configured diagnostic; otherwise issue the
request; any exception before the first fragment yields the web-search-error
diagnostic, an exception mid-stream yields it after the partial fragments
(the `except` at line 189 wraps the whole `for` loop). -/
def openrouterPart (env : StreamEnv) : List String :=
  if env.openrouterConfigured = false then [notConfiguredMsg]
  else
    match env.openrouterOutcome with
    | .preFail => [webSearchErrorMsg]
    | .midFail chunks => chunks ++ [webSearchErrorMsg]
    | .success chunks => chunks

/-- `_stream_perplexity_or_openrouter` (lines 128-191) as the list of
fragments the generator yields.  The Perplexity attempt is guarded by
`if PERPLEXITY_API_KEY:`; the `try ... except` at lines 140-158 wraps both
the request and the whole streaming loop, so an exception raised mid-stream
(after fragments were already yielded) is caught the same way as a
pre-stream failure and control continues with the OpenRouter fallback. -/
def stream_perplexity_or_openrouter (env : StreamEnv) : List String :=
  if env.perplexityConfigured then
    match env.perplexityOutcome with
    | .success chunks => chunks
    | .preFail => openrouterPart env
    | .midFail chunks => chunks ++ openrouterPart env
  else openrouterPart env

/-- `_stream_ollama` (newrag_backend.py lines 105-124): the `except` wraps the
whole loop, so after any failure (pre- or mid-stream) the connection-error
diagnostic is yielded after whatever fragments were already yielded. -/
def stream_ollama (outcome : ProviderOutcome) : List String :=
  match outcome with
  | .preFail => [connectionErrorMsg]
  | .midFail chunks => chunks ++ [connectionErrorMsg]
  | .success chunks => chunks

/-! ### Context retriever (`_retrieve_context`, newrag_backend.py lines 93-102) -/

/-- Result dict of `collection.query`: the `documents` key holds an optional
list of per-query document-text lists (the code uses `documents[0]`). -/
structure QueryResult where
  documents : Option (List (List String))
deriving DecidableEq, Repr

/-- Environment for one `_retrieve_context` call:
whether `self.collection` is non-None, the outcome of the embedding request
(`_get_ollama_embedding` returns None on any request failure; Python then
tests the result for falsiness, so an empty vector also counts as absent),
and the store's reply as a function of the requested `n_results`. -/
structure RetrieveEnv where
  collectionAvailable : Bool
  embedding : Option (List Int)
  store : Nat → QueryResult

/-- `_retrieve_context` (lines 93-102): empty query or missing collection
give "", a falsy embedding gives "", a reply without documents gives "",
otherwise the first documents list is joined with the fixed separator.
The store is queried with `n_results=5` (line 99). -/
def retrieve_context (env : RetrieveEnv) (query : Option String) : String :=
  if optStrFalsy query || env.collectionAvailable = false then ""
  else
    match env.embedding with
    | none => ""
    | some e =>
      if e.isEmpty then ""
      else
        match (env.store 5).documents with
        | none => ""
        | some [] => ""
        | some (docs :: _) => String.intercalate "\n\n---\n\n" docs

/-! ### Orchestrator (`handle_message`, newrag_backend.py lines 227-286) -/

/-- `_append_history` (lines 288-290): appends the user message and the
assistant message, in that order, as one pair. -/
def append_history (st : SessionState) (user_text assistant_text : String) : SessionState :=
  { st with chat_history :=
      st.chat_history ++ [{ role := "user", content := user_text },
                          { role := "assistant", content := assistant_text }] }

/-- Environment for one `handle_message` turn: the outcome of the routing
call, the retrieval environment, and the outcomes of the streaming provider
calls if they are issued. -/
structure TurnEnv where
  router : RouterOutcome
  retrieve : RetrieveEnv
  ollama : ProviderOutcome
  websearch : StreamEnv

/-- Observable result of one `handle_message` turn: the updated session,
the fragments streamed to the caller, the context string passed into the
retrieval prompt when `_retrieve_context` was invoked (none otherwise), and
whether the router / a streaming provider were invoked. -/
structure TurnResult where
  state : SessionState
  output : List String
  retrievedContext : Option String
  routerCalled : Bool
  providerCalled : Bool
deriving DecidableEq, Repr

/-- `handle_message` (lines 227-286).  The ambition follow-up branch (lines
229-238) stores the message verbatim as the ambition, clears the flag,
appends the (message, acknowledgement) pair and yields the acknowledgement
once, without calling the router or any provider.  Otherwise the router runs;
guidance_search with a falsy ambition sets the flag and yields the clarifying
question (lines 244-253); guidance_search with a known ambition streams
Perplexity/OpenRouter (line 265); retrieval retrieves context and streams
Ollama (lines 267-278); everything else streams Ollama (lines 280-286).
None of the three streaming branches touches the history. -/
def handle_message (env : TurnEnv) (st : SessionState) (user_text : String) : TurnResult :=
  if st.awaiting_ambition then
    let st1 : SessionState :=
      { st with user_profile := { st.user_profile with ambition := some user_text },
                awaiting_ambition := false }
    { state := append_history st1 user_text ackText, output := [ackText],
      retrievedContext := none, routerCalled := false, providerCalled := false }
  else
    let routing := route_and_refine env.router user_text
    if routing.intent = "guidance_search" then
      if optStrFalsy st.user_profile.ambition then
        let st1 : SessionState := { st with awaiting_ambition := true }
        { state := append_history st1 user_text clarifyText, output := [clarifyText],
          retrievedContext := none, routerCalled := true, providerCalled := false }
      else
        { state := st, output := stream_perplexity_or_openrouter env.websearch,
          retrievedContext := none, routerCalled := true, providerCalled := true }
    else if routing.intent = "retrieval" then
      let context := retrieve_context env.retrieve routing.query
      { state := st, output := stream_ollama env.ollama,
        retrievedContext := some context, routerCalled := true, providerCalled := true }
    else
      { state := st, output := stream_ollama env.ollama,
        retrievedContext := none, routerCalled := true, providerCalled := true }

/-! ### HTTP chat endpoint (`chat`, newrag_backend.py lines 319-329) -/

/-- The optional profile object of a chat request: each field is absent, or
present with a JSON value (possibly null).  `chat` keeps only the keys
"major" and "ambition" (line 326). -/
structure ProfilePayload where
  majorGiven : Option (Option String)
  ambitionGiven : Option (Option String)
deriving DecidableEq, Repr

/-- One POST /api/newrag/chat body: `message` (defaulted to "" when absent)
and the optional profile dict. -/
structure ChatRequest where
  message : String
  profile : Option ProfilePayload
deriving DecidableEq, Repr

/-- Reply of the chat endpoint: the 400 rejection for an empty message, or
the streamed fragments. -/
inductive ChatResponse where
  | badRequest
  | stream (output : List String)
deriving DecidableEq, Repr

/-- `service.user_profile.update({...})` at line 326: present keys overwrite
the stored fields, absent keys leave them unchanged. -/
def applyProfile (p : UserProfile) (pp : ProfilePayload) : UserProfile :=
  { major := pp.majorGiven.getD p.major, ambition := pp.ambitionGiven.getD p.ambition }

/-- Python str.strip(): drop leading and trailing whitespace (structural
definition on the character list, so it evaluates inside proofs). -/
def pyStrip (s : String) : String :=
  String.mk
    ((((s.data.dropWhile Char.isWhitespace).reverse).dropWhile Char.isWhitespace).reverse)

/-- The `chat` endpoint (lines 319-329): strip the message, apply the profile
update if a dict was provided, THEN reject an empty message with a 400,
otherwise delegate to `handle_message`. -/
def chatEndpoint (env : TurnEnv) (st : SessionState) (req : ChatRequest) :
    SessionState × ChatResponse :=
  let msg := pyStrip req.message
  let st1 :=
    match req.profile with
    | some pp => { st with user_profile := applyProfile st.user_profile pp }
    | none => st
  if msg = "" then (st1, ChatResponse.badRequest)
  else
    let r := handle_message env st1 msg
    (r.state, ChatResponse.stream r.output)

/-! ### CLI loop body (`main`, newragsearch.py lines 200-261) -/

/-- `get_news_guidance` (newragsearch.py lines 105-150) as the fragments its
caller iterates over.  Note that the function contains `yield`, so it is a
generator: the early `return "..."` when no Perplexity key is present ends
iteration without yielding anything.  A request failure (the `except` wraps
the whole loop) yields the web-search-error diagnostic after any partial
fragments. -/
def get_news_guidance (configured : Bool) (outcome : ProviderOutcome) : List String :=
  if configured = false then []
  else
    match outcome with
    | .preFail => [webSearchErrorMsg]
    | .midFail chunks => chunks ++ [webSearchErrorMsg]
    | .success chunks => chunks

/-- One iteration of the `main` loop of newragsearch.py (lines 200-261) for a
non-empty query that is neither /exit nor /clear: every branch accumulates
`final_response_parts`, and at lines 260-261 the (query, joined response)
pair is appended to the history. -/
def cli_turn (env : TurnEnv) (st : SessionState) (query : String) : SessionState :=
  if st.awaiting_ambition then
    { chat_history := st.chat_history ++
        [{ role := "user", content := query }, { role := "assistant", content := ackText }],
      user_profile := { st.user_profile with ambition := some query },
      awaiting_ambition := false }
  else
    let routing := route_and_refine env.router query
    let response : String :=
      if routing.intent = "guidance_search" then
        if optStrFalsy st.user_profile.ambition then clarifyText
        else String.join (get_news_guidance env.websearch.perplexityConfigured
                            env.websearch.perplexityOutcome)
      else if routing.intent = "retrieval" then
        String.join (stream_ollama env.ollama)
      else
        String.join (stream_ollama env.ollama)
    let awaiting :=
      routing.intent = "guidance_search" && optStrFalsy st.user_profile.ambition
    { chat_history := st.chat_history ++
        [{ role := "user", content := query }, { role := "assistant", content := response }],
      user_profile := st.user_profile,
      awaiting_ambition := awaiting }

/-! ### Reachable session states of the backend service -/

/-- Session states reachable from the fresh service through any sequence of
chat requests (with arbitrary external outcomes) and clear requests. -/
inductive Reachable : SessionState → Prop where
  | init : Reachable initialState
  | chatStep (env : TurnEnv) (req : ChatRequest) {st : SessionState} :
      Reachable st → Reachable (chatEndpoint env st req).1
  | clearStep {st : SessionState} : Reachable st → Reachable (clear st)

/-- Session states reachable through chat requests that carry no profile
object, and clear requests. -/
inductive ReachableNP : SessionState → Prop where
  | init : ReachableNP initialState
  | chatStep (env : TurnEnv) (req : ChatRequest) {st : SessionState}
      (hp : req.profile = none) :
      ReachableNP st → ReachableNP (chatEndpoint env st req).1
  | clearStep {st : SessionState} : ReachableNP st → ReachableNP (clear st)

/-! ### Sample environments used to instantiate theorems at concrete inputs -/

/-- A retrieval environment with a live collection, a one-entry embedding and
a store that finds nothing. -/
def sampleRetrieveEnv : RetrieveEnv :=
  { collectionAvailable := true, embedding := some [1, 2],
    store := fun _ => { documents := none } }

/-- A turn environment whose router call fails and whose providers are
unconfigured. -/
def sampleTurnEnv : TurnEnv :=
  { router := RouterOutcome.failure, retrieve := sampleRetrieveEnv,
    ollama := ProviderOutcome.success [],
    websearch := { perplexityConfigured := false, openrouterConfigured := false,
                   perplexityOutcome := ProviderOutcome.preFail,
                   openrouterOutcome := ProviderOutcome.preFail } }

/-- Both providers configured; Perplexity fails mid-stream after one
fragment, OpenRouter then streams one fragment successfully. -/
def midFailEnv : StreamEnv :=
  { perplexityConfigured := true, openrouterConfigured := true,
    perplexityOutcome := ProviderOutcome.midFail ["Computer science offers"],
    openrouterOutcome := ProviderOutcome.success [" many career paths."] }

/-- Only Perplexity configured, and its initial request fails. -/
def onlyPerplexityEnv : StreamEnv :=
  { perplexityConfigured := true, openrouterConfigured := false,
    perplexityOutcome := ProviderOutcome.preFail,
    openrouterOutcome := ProviderOutcome.preFail }

/-! ### Claim C8 -/

/-- Claim C8: session reset is idempotent — applying clear twice yields the
same state as applying it once, namely empty history, profile
{major: None, ambition: None}, and awaiting_ambition = false. -/
theorem clear_idempotent (st : SessionState) :
    clear (clear st) = clear st ∧
    clear st = { chat_history := [],
                 user_profile := { major := none, ambition := none },
                 awaiting_ambition := false } :=
  ⟨rfl, rfl⟩

/-! ### Claim C5 -/

/-- Claim C5 counterexample: a well-formed router reply that lacks the intent
field but carries a query field yields {conversation, the reply query field},
not {conversation, the original query} as the claim states. -/
theorem route_missing_intent_counterexample :
    route_and_refine (RouterOutcome.reply none (some "CSE-412 course details"))
        "Tell me about CSE-412" =
      { intent := "conversation", query := some "CSE-412 course details" } ∧
    route_and_refine (RouterOutcome.reply none (some "CSE-412 course details"))
        "Tell me about CSE-412" ≠
      { intent := "conversation", query := some "Tell me about CSE-412" } :=
  ⟨rfl, by decide⟩

/-- Claim C5 (amended): route never raises (the embedding is total); any
transport error or malformed JSON yields the fallback
{conversation, original query}; but a well-formed reply is used field by
field — a missing intent defaults to "conversation" while the reply query
field (not the original query) is kept, and a present intent value is passed
through even when unrecognized. -/
theorem route_and_refine_fallbacks :
    (∀ q : String, route_and_refine RouterOutcome.failure q =
        { intent := "conversation", query := some q }) ∧
    (∀ (qf : Option String) (q : String),
        route_and_refine (RouterOutcome.reply none qf) q =
          { intent := "conversation", query := qf }) ∧
    (∀ (i : String) (qf : Option String) (q : String),
        route_and_refine (RouterOutcome.reply (some i) qf) q =
          { intent := i, query := qf }) :=
  ⟨fun _ => rfl, fun _ _ => rfl, fun _ _ _ => rfl⟩

/-! ### Claim C1 -/

/-- Claim C1 counterexample: with both providers configured, a Perplexity
failure after one already-yielded fragment does not end the stream — the
adapter falls through to OpenRouter and the output mixes fragments of the
two providers. -/
theorem midstream_fallback_counterexample :
    midFailEnv.perplexityConfigured = true ∧
    midFailEnv.perplexityOutcome = ProviderOutcome.midFail ["Computer science offers"] ∧
    stream_perplexity_or_openrouter midFailEnv =
      ["Computer science offers", " many career paths."] ∧
    stream_perplexity_or_openrouter midFailEnv ≠ ["Computer science offers"] :=
  ⟨rfl, rfl, rfl, by decide⟩

/-- Claim C1 (amended): a mid-stream Perplexity failure is caught by the same
handler as a pre-stream failure, so the adapter continues with the OpenRouter
part after the partial fragments; only a mid-stream failure of the last
provider (OpenRouter) ends the stream, with the fixed web-search-error
fragment appended after the partial fragments. -/
theorem midstream_failure_behavior :
    (∀ (env : StreamEnv) (chunks : List String),
        env.perplexityConfigured = true →
        env.perplexityOutcome = ProviderOutcome.midFail chunks →
        stream_perplexity_or_openrouter env = chunks ++ openrouterPart env) ∧
    (∀ (env : StreamEnv) (chunks : List String),
        env.openrouterConfigured = true →
        env.openrouterOutcome = ProviderOutcome.midFail chunks →
        openrouterPart env = chunks ++ [webSearchErrorMsg]) := by
  constructor
  · intro env chunks hc hm
    simp [stream_perplexity_or_openrouter, hc, hm]
  · intro env chunks hc hm
    simp [openrouterPart, hc, hm]

/-- Witness for the amended C1 at a concrete environment. -/
theorem midstream_failure_behavior_witness :
    stream_perplexity_or_openrouter midFailEnv =
      ["Computer science offers"] ++ openrouterPart midFailEnv :=
  midstream_failure_behavior.1 midFailEnv ["Computer science offers"] rfl rfl

/-! ### Claim C9 -/

/-- Claim C9 counterexample: with Perplexity as the only configured provider
and its initial request failing, every configured provider has failed, yet
the output is the fixed not-configured fragment, not the fixed
web-search-error fragment the claim requires. -/
theorem configured_prefail_counterexample :
    onlyPerplexityEnv.perplexityConfigured = true ∧
    onlyPerplexityEnv.perplexityOutcome = ProviderOutcome.preFail ∧
    onlyPerplexityEnv.openrouterConfigured = false ∧
    stream_perplexity_or_openrouter onlyPerplexityEnv = [notConfiguredMsg] ∧
    stream_perplexity_or_openrouter onlyPerplexityEnv ≠ [webSearchErrorMsg] :=
  ⟨rfl, rfl, rfl, rfl, by decide⟩

/-- Claim C9 (amended): with no provider configured the output is exactly the
fixed not-configured fragment; when the Perplexity attempt is skipped or
pre-fails, the ending diagnostic is decided by OpenRouter alone — if
OpenRouter is configured and its initial request fails the output ends as
exactly the fixed web-search-error fragment, and if OpenRouter is
unconfigured the output ends as exactly the not-configured fragment even
when a configured Perplexity failed. -/
theorem diagnostic_fragments :
    (∀ env : StreamEnv,
        env.perplexityConfigured = false → env.openrouterConfigured = false →
        stream_perplexity_or_openrouter env = [notConfiguredMsg]) ∧
    (∀ env : StreamEnv,
        env.perplexityOutcome = ProviderOutcome.preFail →
        env.openrouterConfigured = true →
        env.openrouterOutcome = ProviderOutcome.preFail →
        stream_perplexity_or_openrouter env = [webSearchErrorMsg]) ∧
    (∀ env : StreamEnv,
        env.perplexityConfigured = true →
        env.perplexityOutcome = ProviderOutcome.preFail →
        env.openrouterConfigured = false →
        stream_perplexity_or_openrouter env = [notConfiguredMsg]) := by
  refine ⟨?_, ?_, ?_⟩
  · intro env h1 h2
    simp [stream_perplexity_or_openrouter, openrouterPart, h1, h2]
  · intro env h1 h2 h3
    by_cases hp : env.perplexityConfigured = true <;>
      simp [stream_perplexity_or_openrouter, openrouterPart, h1, h2, h3, hp]
  · intro env h1 h2 h3
    simp [stream_perplexity_or_openrouter, openrouterPart, h1, h2, h3]

/-- Witness for the amended C9 at two concrete environments. -/
theorem diagnostic_fragments_witness :
    stream_perplexity_or_openrouter
        { perplexityConfigured := false, openrouterConfigured := false,
          perplexityOutcome := ProviderOutcome.preFail,
          openrouterOutcome := ProviderOutcome.preFail } = [notConfiguredMsg] ∧
    stream_perplexity_or_openrouter
        { perplexityConfigured := true, openrouterConfigured := true,
          perplexityOutcome := ProviderOutcome.preFail,
          openrouterOutcome := ProviderOutcome.preFail } = [webSearchErrorMsg] :=
  ⟨diagnostic_fragments.1 _ rfl rfl, diagnostic_fragments.2.1 _ rfl rfl rfl⟩

/-! ### Claim C6 -/

/-- Claim C6: while awaiting_ambition is true, the next message is stored
verbatim as the ambition (major untouched), the flag clears, the
(message, acknowledgement) pair is appended to history, the output is exactly
the fixed acknowledgement, and neither the router nor any streaming provider
is invoked. -/
theorem awaiting_ambition_turn (env : TurnEnv) (st : SessionState) (m : String)
    (h : st.awaiting_ambition = true) :
    (handle_message env st m).state.user_profile.ambition = some m ∧
    (handle_message env st m).state.user_profile.major = st.user_profile.major ∧
    (handle_message env st m).state.awaiting_ambition = false ∧
    (handle_message env st m).state.chat_history =
      st.chat_history ++ [{ role := "user", content := m },
                          { role := "assistant", content := ackText }] ∧
    (handle_message env st m).output = [ackText] ∧
    (handle_message env st m).routerCalled = false ∧
    (handle_message env st m).providerCalled = false := by
  simp [handle_message, h, append_history]

/-- A session paused on the ambition clarification question. -/
def awaitingExample : SessionState :=
  { chat_history := [{ role := "user", content := "What career should I pursue?" },
                     { role := "assistant", content := clarifyText }],
    user_profile := { major := some "Computer Science", ambition := none },
    awaiting_ambition := true }

/-- Witness for C6 at a concrete paused session and follow-up message. -/
theorem awaiting_ambition_turn_witness :
    (handle_message sampleTurnEnv awaitingExample "I want to go into research").state.user_profile.ambition =
      some "I want to go into research" ∧
    (handle_message sampleTurnEnv awaitingExample "I want to go into research").state.user_profile.major =
      awaitingExample.user_profile.major ∧
    (handle_message sampleTurnEnv awaitingExample "I want to go into research").state.awaiting_ambition =
      false ∧
    (handle_message sampleTurnEnv awaitingExample "I want to go into research").state.chat_history =
      awaitingExample.chat_history ++ [{ role := "user", content := "I want to go into research" },
                                       { role := "assistant", content := ackText }] ∧
    (handle_message sampleTurnEnv awaitingExample "I want to go into research").output = [ackText] ∧
    (handle_message sampleTurnEnv awaitingExample "I want to go into research").routerCalled = false ∧
    (handle_message sampleTurnEnv awaitingExample "I want to go into research").providerCalled = false :=
  awaiting_ambition_turn sampleTurnEnv awaitingExample "I want to go into research" rfl

/-! ### Claim C10 -/

/-- Claim C10: the chat endpoint applies the request profile to the session
before validating the message, so a request whose stripped message is empty
but which carries a profile dict is rejected with the 400 response while
still mutating the session profile. -/
theorem profile_applied_before_validation (env : TurnEnv) (st : SessionState)
    (req : ChatRequest) (pp : ProfilePayload)
    (hmsg : pyStrip req.message = "") (hp : req.profile = some pp) :
    chatEndpoint env st req =
      ({ st with user_profile := applyProfile st.user_profile pp },
       ChatResponse.badRequest) := by
  simp [chatEndpoint, hmsg, hp]

/-- Witness for C10: a whitespace-only message with a major update is
rejected yet leaves the session with the new major. -/
theorem profile_applied_before_validation_witness :
    chatEndpoint sampleTurnEnv initialState
        { message := "   ",
          profile := some { majorGiven := some (some "Computer Science"),
                            ambitionGiven := none } } =
      ({ chat_history := [],
         user_profile := { major := some "Computer Science", ambition := none },
         awaiting_ambition := false },
       ChatResponse.badRequest) :=
  profile_applied_before_validation sampleTurnEnv initialState
    { message := "   ",
      profile := some { majorGiven := some (some "Computer Science"),
                        ambitionGiven := none } }
    { majorGiven := some (some "Computer Science"), ambitionGiven := none }
    (by decide) rfl

/-! ### Claim C7 -/

/-- Claim C7: retrieve returns "" for a falsy query, an unavailable store, a
failed (absent-or-empty, following the source falsiness test) embedding, or a
reply with no documents; otherwise it returns the first documents list of the
k=5 store reply joined in store order with the fixed separator.  Totality of
the definition embodies that no failure reaches the caller. -/
theorem retrieve_context_spec :
    (∀ env : RetrieveEnv,
        retrieve_context env none = "" ∧ retrieve_context env (some "") = "") ∧
    (∀ (env : RetrieveEnv) (q : Option String),
        env.collectionAvailable = false → retrieve_context env q = "") ∧
    (∀ (env : RetrieveEnv) (q : Option String),
        env.embedding = none ∨ env.embedding = some [] →
        retrieve_context env q = "") ∧
    (∀ (env : RetrieveEnv) (q : Option String),
        (env.store 5).documents = none ∨ (env.store 5).documents = some [] →
        retrieve_context env q = "") ∧
    (∀ (env : RetrieveEnv) (q : String) (e : List Int) (docs : List String)
        (rest : List (List String)),
        q ≠ "" → env.collectionAvailable = true → env.embedding = some e →
        e ≠ [] → (env.store 5).documents = some (docs :: rest) →
        retrieve_context env (some q) = String.intercalate "\n\n---\n\n" docs) := by
  refine ⟨?_, ?_, ?_, ?_, ?_⟩
  · intro env
    constructor <;> simp [retrieve_context, optStrFalsy]
  · intro env q h
    simp [retrieve_context, h]
  · intro env q h
    unfold retrieve_context
    split
    · rfl
    · split
      · rfl
      · rcases h with h | h <;> simp_all
  · intro env q h
    unfold retrieve_context
    split
    · rfl
    · split
      · rfl
      · split
        · rfl
        · split
          · rfl
          · rfl
          · rcases h with h | h <;> simp_all
  · intro env q e docs rest hq hc he hee hdocs
    have hee2 : e.isEmpty = false := by
      cases e with
      | nil => exact absurd rfl hee
      | cons a l => rfl
    simp [retrieve_context, optStrFalsy, hq, hc, he, hee2, hdocs]

/-- A store reply containing two matching chunks. -/
def retrieveSample : RetrieveEnv :=
  { collectionAvailable := true, embedding := some [3],
    store := fun _ =>
      { documents := some [["CSE-412 requires CSE-201.", "CSE-412 is offered in fall."]] } }

/-- Witness for C7: the join case at a concrete environment. -/
theorem retrieve_context_spec_witness :
    retrieve_context retrieveSample (some "CSE-412 prerequisites") =
      String.intercalate "\n\n---\n\n"
        ["CSE-412 requires CSE-201.", "CSE-412 is offered in fall."] :=
  retrieve_context_spec.2.2.2.2 retrieveSample "CSE-412 prerequisites" [3]
    ["CSE-412 requires CSE-201.", "CSE-412 is offered in fall."] []
    (by decide) rfl rfl (by decide) rfl

/-! ### Claim C2 -/

/-- A conversation-intent turn where Ollama streams two fragments. -/
def conversationEnv : TurnEnv :=
  { router := RouterOutcome.reply (some "conversation") none,
    retrieve := sampleRetrieveEnv,
    ollama := ProviderOutcome.success ["Hello", " there!"],
    websearch := { perplexityConfigured := false, openrouterConfigured := false,
                   perplexityOutcome := ProviderOutcome.preFail,
                   openrouterOutcome := ProviderOutcome.preFail } }

/-- Claim C2 evidence: on the same conversation-intent turn the backend
handle_message streams the full reply yet leaves chat_history unchanged
(empty), while the CLI loop of newragsearch.py appends the
(user message, joined streamed text) pair exactly as the claim states. -/
theorem history_append_divergence :
    (handle_message conversationEnv initialState "Hi there!").output =
      ["Hello", " there!"] ∧
    (handle_message conversationEnv initialState "Hi there!").state.chat_history = [] ∧
    (cli_turn conversationEnv initialState "Hi there!").chat_history =
      [{ role := "user", content := "Hi there!" },
       { role := "assistant", content := "Hello there!" }] :=
  ⟨rfl, rfl, by decide⟩

/-! ### Claim C3 -/

/-- Every `handle_message` turn appends either nothing or exactly one
user/assistant pair to the history. -/
theorem handle_message_history_length (env : TurnEnv) (st : SessionState) (m : String) :
    (handle_message env st m).state.chat_history.length = st.chat_history.length ∨
    (handle_message env st m).state.chat_history.length = st.chat_history.length + 2 := by
  by_cases h1 : st.awaiting_ambition = true
  · right
    simp [handle_message, h1, append_history]
  · by_cases h2 : (route_and_refine env.router m).intent = "guidance_search"
    · by_cases h3 : optStrFalsy st.user_profile.ambition = true
      · right
        simp [handle_message, h1, h2, h3, append_history]
      · left
        simp [handle_message, h1, h2, h3]
    · by_cases h4 : (route_and_refine env.router m).intent = "retrieval"
      · left
        simp [handle_message, h1, h2, h4]
      · left
        simp [handle_message, h1, h2, h4]

/-- A `handle_message` turn preserves evenness of the history length. -/
theorem handle_message_history_even (env : TurnEnv) (st : SessionState) (m : String)
    (h : Even st.chat_history.length) :
    Even (handle_message env st m).state.chat_history.length := by
  rcases handle_message_history_length env st m with h2 | h2 <;> rw [h2]
  · exact h
  · exact h.add even_two

/-- A chat request (400-rejected or handled) preserves evenness of the
history length. -/
theorem chatEndpoint_history_even (env : TurnEnv) (st : SessionState) (req : ChatRequest)
    (h : Even st.chat_history.length) :
    Even (chatEndpoint env st req).1.chat_history.length := by
  unfold chatEndpoint
  cases hp : req.profile with
  | none =>
    by_cases hm : pyStrip req.message = "" <;> simp only [hp, hm, if_pos, if_neg, reduceIte]
    · exact h
    · exact handle_message_history_even env st (pyStrip req.message) h
  | some pp =>
    by_cases hm : pyStrip req.message = "" <;> simp only [hp, hm, if_pos, if_neg, reduceIte]
    · exact h
    · exact handle_message_history_even env _ (pyStrip req.message) h

/-- Claim C3: starting from a fresh or cleared session, after any sequence of
chat requests and clears the conversation history length is even — messages
are only ever appended as a user/assistant pair. -/
theorem history_length_even (st : SessionState) (h : Reachable st) :
    Even st.chat_history.length := by
  induction h with
  | init => exact even_zero
  | chatStep env req _ ih => exact chatEndpoint_history_even env _ req ih
  | clearStep _ ih => exact even_zero

/-- Witness for C3 at the freshly created session. -/
theorem history_length_even_witness : Even initialState.chat_history.length :=
  history_length_even initialState Reachable.init

/-! ### Claim C4 -/

/-- A turn environment whose router classifies the message as
guidance_search. -/
def guidanceEnv : TurnEnv :=
  { router := RouterOutcome.reply (some "guidance_search") none,
    retrieve := sampleRetrieveEnv, ollama := ProviderOutcome.success [],
    websearch := { perplexityConfigured := false, openrouterConfigured := false,
                   perplexityOutcome := ProviderOutcome.preFail,
                   openrouterOutcome := ProviderOutcome.preFail } }

/-- A guidance question with no profile attached. -/
def careerReq : ChatRequest :=
  { message := "What career should I pursue?", profile := none }

/-- A whitespace-only message carrying a profile ambition — rejected with
400, but the profile update still happens first. -/
def rejectedProfileReq : ChatRequest :=
  { message := "   ",
    profile := some { majorGiven := none, ambitionGiven := some (some "quant trading") } }

/-- The session after the guidance turn (which sets awaiting_ambition)
followed by the rejected profile-bearing request. -/
def leakedState : SessionState :=
  (chatEndpoint guidanceEnv
    (chatEndpoint guidanceEnv initialState careerReq).1 rejectedProfileReq).1

/-- Claim C4 counterexample: a reachable state in which awaiting_ambition is
true while the profile ambition is already set — a guidance turn sets the
flag, then a 400-rejected request carrying a profile sets the ambition
without touching the flag. -/
theorem awaiting_ambition_leak_counterexample :
    Reachable leakedState ∧
    leakedState.awaiting_ambition = true ∧
    leakedState.user_profile.ambition = some "quant trading" ∧
    leakedState.user_profile.ambition ≠ none := by
  refine ⟨?_, by decide, by decide, by decide⟩
  exact Reachable.chatStep guidanceEnv rejectedProfileReq
    (Reachable.chatStep guidanceEnv careerReq Reachable.init)

/-- The invariant that actually carries through profile-free traffic:
awaiting implies no ambition, and the ambition is never the empty string. -/
def ambitionInv (st : SessionState) : Prop :=
  (st.awaiting_ambition = true → st.user_profile.ambition = none) ∧
  st.user_profile.ambition ≠ some ""

/-- A `handle_message` turn on a non-empty message preserves `ambitionInv`. -/
theorem handle_message_ambitionInv (env : TurnEnv) (st : SessionState) (m : String)
    (hm : m ≠ "") (h : ambitionInv st) :
    ambitionInv (handle_message env st m).state := by
  obtain ⟨h1, h2⟩ := h
  by_cases ha : st.awaiting_ambition = true
  · constructor
    · simp [handle_message, ha, append_history]
    · simpa [handle_message, ha, append_history] using hm
  · by_cases hg : (route_and_refine env.router m).intent = "guidance_search"
    · by_cases hf : optStrFalsy st.user_profile.ambition = true
      · have hnone : st.user_profile.ambition = none := by
          rcases hs : st.user_profile.ambition with _ | s
          · rfl
          · rw [hs] at hf
            have hs2 : s = "" := by simpa [optStrFalsy] using hf
            exact absurd (hs2 ▸ hs) h2
        constructor
        · intro _
          simp [handle_message, ha, hg, hf, append_history, hnone, optStrFalsy]
        · simpa [handle_message, ha, hg, hf, append_history] using h2
      · have hstate : (handle_message env st m).state = st := by
          simp [handle_message, ha, hg, hf]
        rw [hstate]
        exact ⟨h1, h2⟩
    · have hstate : (handle_message env st m).state = st := by
        by_cases hr : (route_and_refine env.router m).intent = "retrieval" <;>
          simp [handle_message, ha, hg, hr]
      rw [hstate]
      exact ⟨h1, h2⟩

/-- A profile-free chat request preserves `ambitionInv`. -/
theorem chatEndpoint_ambitionInv (env : TurnEnv) (st : SessionState) (req : ChatRequest)
    (hp : req.profile = none) (h : ambitionInv st) :
    ambitionInv (chatEndpoint env st req).1 := by
  unfold chatEndpoint
  by_cases hm : pyStrip req.message = "" <;> simp only [hp, hm, if_pos, if_neg, reduceIte]
  · exact h
  · exact handle_message_ambitionInv env st (pyStrip req.message) hm h

/-- Along profile-free traffic, `ambitionInv` holds in every reachable
state. -/
theorem reachableNP_ambitionInv (st : SessionState) (h : ReachableNP st) :
    ambitionInv st := by
  induction h with
  | init => exact ⟨fun _ => rfl, by simp [initialState]⟩
  | chatStep env req hp _ ih => exact chatEndpoint_ambitionInv env _ req hp ih
  | clearStep _ ih => exact ⟨fun _ => rfl, by simp [clear]⟩

/-- Claim C4 (amended): in every session state reachable through chat
requests that carry no profile object (plus clears), awaiting_ambition = true
implies the profile ambition is None; the unrestricted claim fails because a
request carrying a profile — notably one rejected with 400 for an empty
message — can set the ambition while the flag stays true. -/
theorem awaiting_implies_no_ambition (st : SessionState) (h : ReachableNP st)
    (ha : st.awaiting_ambition = true) : st.user_profile.ambition = none :=
  (reachableNP_ambitionInv st h).1 ha

/-- Witness for the amended C4 at the concrete profile-free guidance turn
that sets the flag. -/
theorem awaiting_implies_no_ambition_witness :
    (chatEndpoint guidanceEnv initialState careerReq).1.user_profile.ambition = none :=
  awaiting_implies_no_ambition _
    (ReachableNP.chatStep guidanceEnv careerReq rfl ReachableNP.init) (by decide)

end NewRAG
